import Mathlib

/-!
Shallow embedding of `src/app/wyzecam/kinesis/webrtc_client.py` (class
`WebRtcClient`) together with the data model of
`src/app/wyzecam/kinesis/wpk_stream_info_model.py`.

Modelling conventions:
* The external discovery API `get_camera_stream` (module `wyzecam.api`, not part
  of this repository snapshot, and declared an external collaborator by the
  spec) is passed in as an `Except Unit (Option Stream)` argument: `.error` for
  a raised exception, `.ok none` for a falsy result, `.ok (some st)` for a
  usable record.
* The aiortc peer connection is modelled as an explicit record; its engine-side
  behaviour (`createAnswer`, whether `addIceCandidate` succeeds) is supplied by
  a `SigEnv` of oracle functions, while `setRemoteDescription` and
  `setLocalDescription` store the given description, as the coordinator
  observes them.
* A method that raises is modelled by a result record carrying
  `raised : Option PyErr`; the `client` field of the result is the attribute
  state of the object at the moment the method returns or the exception
  escapes.
* Python attribute state of a constructed client is flattened into the `Client`
  structure; the fields of the (never actually bound, see `WebRtcClient_init`)
  `webrtc_context` object appear as `webrtc_context_*` fields so that the
  methods that reference them can be analysed.
-/

namespace WyzeWebRtc

/-- Connection states of `WebRtcState` (webrtc_client.py lines 21-27). -/
inductive WebRtcState where
  | CONNECTING
  | CONNECTED
  | DISCONNECTING
  | DISCONNECTED
deriving DecidableEq, Repr

/-- Pydantic model `IceServer` (wpk_stream_info_model.py lines 5-8):
`url`, `username` (default ""), `credential` (default ""). -/
structure IceServer where
  url : String
  username : String
  credential : String
deriving DecidableEq, Repr

/-- Pydantic model `ParamsBean` (wpk_stream_info_model.py lines 11-14). -/
structure ParamsBean where
  signaling_url : String
  auth_token : String
  ice_servers : List IceServer
deriving DecidableEq, Repr

/-- The part of the pydantic model `Stream` that `create_webrtc_session`
reads (`stream.params`, wpk_stream_info_model.py lines 21-25). -/
structure Stream where
  device_id : String
  provider : String
  params : ParamsBean
deriving DecidableEq, Repr

/-- Python `a or b` on strings: the left operand unless it is falsy (empty). -/
def pyOrStr (a b : String) : String :=
  if a = "" then b else a

/-- Python `a or b` on lists: the left operand unless it is falsy (empty). -/
def pyOrList {α : Type} (a b : List α) : List α :=
  if a.isEmpty then b else a

/-- JSON values as far as the signaling handler distinguishes them:
strings and null.  Absent keys are represented by `Option` at the access
site (`jget`). -/
inductive JVal where
  | str : String → JVal
  | null : JVal
deriving DecidableEq, Repr

/-- A JSON object: key/value pairs in insertion order. -/
abbrev JObj := List (String × JVal)

/-- Python `dict.get(k)`: the first value bound to `k`, if any. -/
def jget (o : JObj) (k : String) : Option JVal :=
  (o.find? (fun p => p.1 = k)).map (fun p => p.2)

/-- Python truthiness of a `dict.get` result: absent and `None` and the
empty string are falsy. -/
def jtruthy : Option JVal → Bool
  | none => false
  | some JVal.null => false
  | some (JVal.str s) => s ≠ ""

/-- An aiortc `RTCSessionDescription`: an `sdp` string and a `type` tag. -/
structure RTCSessionDescription where
  sdp : String
  type : String
deriving DecidableEq, Repr

/-- Observable state of an aiortc `RTCPeerConnection` as used by the client:
the descriptions applied so far, the candidates applied via
`addIceCandidate`, the ICE server list of its `RTCConfiguration`, and its
`connectionState` string. -/
structure PeerConnection where
  remoteDescription : Option RTCSessionDescription
  localDescription : Option RTCSessionDescription
  appliedCandidates : List JVal
  configIceUrls : List String
  connectionState : String
deriving DecidableEq, Repr

/-- `pc.setRemoteDescription(d)`: the description is stored. -/
def PeerConnection.setRemoteDescription (pc : PeerConnection)
    (d : RTCSessionDescription) : PeerConnection :=
  { pc with remoteDescription := some d }

/-- `pc.setLocalDescription(d)`: the description is stored, and
`pc.localDescription` subsequently reads it back. -/
def PeerConnection.setLocalDescription (pc : PeerConnection)
    (d : RTCSessionDescription) : PeerConnection :=
  { pc with localDescription := some d }

/-- Exceptions that escape the embedded methods. -/
inductive PyErr where
  | attributeError
  | keyError
  | valueError
  | candidateApplyError
  | signalingError
  | discoveryRaise
deriving DecidableEq, Repr

/-- Attribute state of a `WebRtcClient` object, flattened.  The
`webrtc_context_*` fields stand for the attributes of the
`self.webrtc_context` object referenced by `__init__` and
`create_webrtc_session`. -/
structure Client where
  state : WebRtcState
  session_id : Option String
  session_id_crc32 : Option String
  mac : Option String
  access_token : Option String
  model : Option String
  ice_servers : List IceServer
  ice_candidates_before_sdp_answer : List JVal
  webrtc_context_signaling_token : String
  webrtc_context_signaling_url : String
  webrtc_context_ice_servers : List IceServer
  web_socket : Option Unit
  web_socket_opened : Bool
  peer_connection : Option PeerConnection
deriving DecidableEq, Repr

/-- The attribute values `__init__` would leave on a client if the
`self.webrtc_context` reference did not fail (see `WebRtcClient_init`). -/
def freshClient : Client :=
  { state := WebRtcState.DISCONNECTED
    session_id := none
    session_id_crc32 := none
    mac := none
    access_token := none
    model := none
    ice_servers := []
    ice_candidates_before_sdp_answer := []
    webrtc_context_signaling_token := ""
    webrtc_context_signaling_url := ""
    webrtc_context_ice_servers := []
    web_socket := none
    web_socket_opened := false
    peer_connection := none }

/-- Result of a method call: the attribute state on return and the
exception that escaped, if any. -/
structure MethodResult where
  client : Client
  raised : Option PyErr
deriving DecidableEq, Repr

/-- Result of `handle_signaling_message`: attribute state, messages sent
over the web socket (as parsed JSON objects), and the escaped exception. -/
structure SigResult where
  client : Client
  sent : List JObj
  raised : Option PyErr
deriving DecidableEq, Repr

/-- Engine-side oracles: what `createAnswer` produces for a given peer
connection state, and whether `addIceCandidate` succeeds on a given
candidate value. -/
structure SigEnv where
  createAnswer : PeerConnection → RTCSessionDescription
  candidateOk : JVal → Bool

/-- One bit step of the CRC32 shift register (polynomial 0xEDB88320). -/
def crc32Bit (c : Nat) : Nat :=
  if c % 2 = 1 then (c / 2) ^^^ 0xEDB88320 else c / 2

/-- Fold one byte into the CRC32 accumulator. -/
def crc32Byte (c b : Nat) : Nat :=
  crc32Bit^[8] (c ^^^ (b % 256))

/-- The CRC32 checksum of the UTF-8 encoding of a string, as computed by
`zlib.crc32(s.encode())`. -/
def crc32 (s : String) : Nat :=
  0xFFFFFFFF ^^^ (s.toUTF8.data.toList.foldl (fun c b => crc32Byte c b.toNat) 0xFFFFFFFF)

/-- Lowercase hexadecimal digit. -/
def hexChar (n : Nat) : Char :=
  "0123456789abcdef".toList.getD n '0'

/-- Python `format(n, "08x")` for `n < 2^32`: eight lowercase hex digits. -/
def toHex8 (n : Nat) : String :=
  String.mk ((List.range 8).map (fun i => hexChar (n / 16 ^ (7 - i) % 16)))

/-- The session fingerprint of webrtc_client.py lines 192-194:
`format(zlib.crc32(sid.encode()) & 0xFFFFFFFF, "08x")[4:]`. -/
def session_fingerprint (sid : String) : String :=
  (toHex8 (crc32 sid &&& 0xFFFFFFFF)).drop 4

/-- Embedding of `webrtc_peer_connection_factory` (webrtc_client.py lines
65-94).  The `RTCConfiguration` is built as
`[RTCIceServer(urls=ice_server.urls) for ice_server in self.ice_servers]`:
the `IceServer` records of this code base carry `url`, never `urls`, so the
comprehension raises `AttributeError` on any non-empty `self.ice_servers`;
on the empty list (the only value `self.ice_servers` ever holds, see
`WebRtcClient_init`) the configuration is empty and a fresh peer connection
is stored. -/
def webrtc_peer_connection_factory (c : Client) : MethodResult :=
  match c.ice_servers with
  | [] =>
      let pc : PeerConnection :=
        { remoteDescription := none
          localDescription := none
          appliedCandidates := []
          configIceUrls := []
          connectionState := "new" }
      { client := { c with peer_connection := some pc }, raised := none }
  | _ :: _ => { client := c, raised := some PyErr.attributeError }

/-- Embedding of `handle_signaling_message` (webrtc_client.py lines 96-119).
The whole body sits in one `try`/`except` whose handler logs the error and
re-raises it, so every failure escapes as `raised = some _`. -/
def handle_signaling_message (env : SigEnv) (c : Client) (msg : JObj) : SigResult :=
  if jget msg "type" = some (JVal.str "offer") then
    match jget msg "sdp" with
    | none =>
        -- `msg["sdp"]` raises KeyError; logged and re-raised
        { client := c, sent := [], raised := some PyErr.keyError }
    | some JVal.null =>
        -- an sdp of None is rejected when applied; logged and re-raised
        { client := c, sent := [], raised := some PyErr.signalingError }
    | some (JVal.str sdp) =>
      match c.peer_connection with
      | none =>
          -- `self.peer_connection.setRemoteDescription` on None
          { client := c, sent := [], raised := some PyErr.attributeError }
      | some pc =>
        let pc1 := pc.setRemoteDescription ({ sdp := sdp, type := "offer" })
        let answer := env.createAnswer pc1
        let pc2 := pc1.setLocalDescription answer
        match c.web_socket with
        | none =>
            -- `self.web_socket.send` on None
            { client := { c with peer_connection := some pc2 }
              sent := []
              raised := some PyErr.attributeError }
        | some _ =>
            -- response sdp is `self.peer_connection.localDescription.sdp`,
            -- which `setLocalDescription` just set to `answer`
            { client := { c with peer_connection := some pc2 }
              sent := [[("type", JVal.str "answer"), ("sdp", JVal.str answer.sdp)]]
              raised := none }
  else if jget msg "type" = some (JVal.str "ice-candidate") then
    if jtruthy (jget msg "candidate") then
      match c.peer_connection with
      | none => { client := c, sent := [], raised := some PyErr.attributeError }
      | some pc =>
        let cand := (jget msg "candidate").getD JVal.null
        if env.candidateOk cand then
          let pc1 : PeerConnection :=
            { pc with appliedCandidates := pc.appliedCandidates ++ [cand] }
          { client := { c with peer_connection := some pc1 }
            sent := []
            raised := none }
        else
          -- `addIceCandidate` raised: logged by the except clause, re-raised
          { client := c, sent := [], raised := some PyErr.candidateApplyError }
    else
      { client := c, sent := [], raised := none }
  else
    { client := c, sent := [], raised := none }

/-- Embedding of `create_webrtc_session` (webrtc_client.py lines 240-314).
The `get_camera_stream` call is passed in as `streamResult`; the `try` of the
source is commented out, so a raised exception escapes.  On a usable record
the signaling token and URL and the mapped ICE servers are written into
`self.webrtc_context`, the state is set to `CONNECTED`, and
`self.complete_start_webrtc_connection()` is called without `await`: the
coroutine object is created but never runs, so it has no further effect. -/
def create_webrtc_session (c : Client)
    (streamResult : Except Unit (Option Stream)) : MethodResult :=
  match streamResult with
  | Except.error _ => { client := c, raised := some PyErr.discoveryRaise }
  | Except.ok none =>
      -- `if not stream:` logs the failure and returns
      { client := c, raised := none }
  | Except.ok (some st) =>
      let params := st.params
      let mapped := params.ice_servers.map (fun s =>
        -- `IceServer(**{...})`; `if server:` is always true on a model instance
        { url := s.url
          username := pyOrStr s.username ""
          credential := pyOrStr s.credential "" : IceServer })
      { client := { c with
          webrtc_context_signaling_token := pyOrStr params.auth_token ""
          webrtc_context_signaling_url := pyOrStr params.signaling_url ""
          webrtc_context_ice_servers := mapped
          state := WebRtcState.CONNECTED }
        raised := none }

/-- Embedding of `start_webrtc_connection` (webrtc_client.py lines 169-206).
`uuid4` stands for the freshly generated `str(uuid.uuid4())`. -/
def start_webrtc_connection (c : Client) (mac access_token model : String)
    (uuid4 : String) (streamResult : Except Unit (Option Stream)) : MethodResult :=
  if mac = "" ∨ access_token = "" ∨ model = "" then
    -- `any(not v for v in required.values())`
    { client := c, raised := some PyErr.valueError }
  else if c.state = WebRtcState.CONNECTED then
    -- already connected: log and return
    { client := c, raised := none }
  else if c.state ≠ WebRtcState.DISCONNECTED then
    -- CONNECTING or DISCONNECTING: log error and return
    { client := c, raised := none }
  else
    let c1 : Client := { c with
      state := WebRtcState.CONNECTING
      session_id := some uuid4
      session_id_crc32 := some (session_fingerprint uuid4)
      mac := some mac
      access_token := some access_token
      model := some model }
    create_webrtc_session c1 streamResult

/-- Result of `cleanup`: the attribute state afterwards and whether
`close()` was attempted on the peer connection and on the web socket. -/
structure CleanupResult where
  client : Client
  pc_close_attempted : Bool
  ws_close_attempted : Bool
deriving DecidableEq, Repr

/-- Embedding of `cleanup` (webrtc_client.py lines 332-338): close the peer
connection if present, close the web socket if present, set
`web_socket_opened` to False.  Nothing else is touched. -/
def cleanup (c : Client) : CleanupResult :=
  let c1 := match c.peer_connection with
    | some pc => { c with peer_connection := some ({ pc with connectionState := "closed" }) }
    | none => c
  { client := { c1 with web_socket_opened := false }
    pc_close_attempted := c.peer_connection.isSome
    ws_close_attempted := c.web_socket.isSome }

/-- Values assigned by `__init__`, as far as attribute-binding is concerned. -/
inductive InitVal (α : Type) where
  | arg : α → InitVal α
  | enumState : WebRtcState → InitVal α
  | emptyList : InitVal α
  | noneV : InitVal α
  | falseV : InitVal α

/-- A statement of `__init__`: either `self.name = value`, or
`self.obj.field = value`, which first reads attribute `obj` of `self`. -/
inductive InitStmt (α : Type) where
  | assign : String → InitVal α → InitStmt α
  | assignNested : String → String → InitVal α → InitStmt α

/-- Run the statements of `__init__` in order over the attribute map of the
fresh object.  `self.obj.field = v` raises `AttributeError` when `obj` is
not yet bound on `self`. -/
def runInit {α : Type} : List (InitStmt α) → List (String × InitVal α) →
    Except PyErr (List (String × InitVal α))
  | [], attrs => Except.ok attrs
  | InitStmt.assign n v :: rest, attrs => runInit rest (attrs ++ [(n, v)])
  | InitStmt.assignNested o _ _ :: rest, attrs =>
      if attrs.any (fun p => p.1 = o) then runInit rest attrs
      else Except.error PyErr.attributeError

/-- The statements of `WebRtcClient.__init__` (webrtc_client.py lines
41-63), in source order. -/
def webrtc_client_init_stmts {α : Type}
    (stream_listener status_listener webrtc_statistics : α) : List (InitStmt α) :=
  [ InitStmt.assign "stream_listener" (InitVal.arg stream_listener)
  , InitStmt.assign "status_listener" (InitVal.arg status_listener)
  , InitStmt.assign "webrtc_statistics" (InitVal.arg webrtc_statistics)
  , InitStmt.assign "state" (InitVal.enumState WebRtcState.DISCONNECTED)
  , InitStmt.assignNested "webrtc_context" "ice_servers" InitVal.emptyList
  , InitStmt.assign "ice_servers" InitVal.emptyList
  , InitStmt.assign "ice_candidates_before_sdp_answer" InitVal.emptyList
  , InitStmt.assign "session_id" InitVal.noneV
  , InitStmt.assign "session_id_crc32" InitVal.noneV
  , InitStmt.assign "context" InitVal.noneV
  , InitStmt.assign "mac" InitVal.noneV
  , InitStmt.assign "user_id" InitVal.noneV
  , InitStmt.assign "access_token" InitVal.noneV
  , InitStmt.assign "model" InitVal.noneV
  , InitStmt.assign "web_socket" InitVal.noneV
  , InitStmt.assign "web_socket_opened" InitVal.falseV
  , InitStmt.assign "peer_connection" InitVal.noneV ]

/-- Embedding of `WebRtcClient.__init__`: run its statements on a fresh,
attribute-less object. -/
def WebRtcClient_init {α : Type}
    (stream_listener status_listener webrtc_statistics : α) :
    Except PyErr (List (String × InitVal α)) :=
  runInit (webrtc_client_init_stmts stream_listener status_listener webrtc_statistics) []

/-! Concrete fixtures used to evaluate the embedded methods. -/

/-- An engine oracle: a fixed answer, and `addIceCandidate` failing exactly
on the candidate string "bad". -/
def answerEnv : SigEnv :=
  { createAnswer := fun _ => { sdp := "ANS", type := "answer" }
    candidateOk := fun v => v ≠ JVal.str "bad" }

/-- A freshly created peer connection (no descriptions, no candidates,
empty ICE configuration). -/
def newPc : PeerConnection :=
  { remoteDescription := none
    localDescription := none
    appliedCandidates := []
    configIceUrls := []
    connectionState := "new" }

/-- A client mid-negotiation: connecting, peer connection created, web
socket open, no local description applied yet, empty candidate buffer. -/
def liveClient : Client :=
  { freshClient with
      state := WebRtcState.CONNECTING
      peer_connection := some newPc
      web_socket := some () }

/-- A discovery record carrying two relay-server descriptors and a valid
signaling endpoint. -/
def twoServerStream : Stream :=
  { device_id := "dev1"
    provider := "kinesis"
    params :=
      { signaling_url := "wss://sig"
        auth_token := "tok"
        ice_servers :=
          [ { url := "turn:a", username := "u", credential := "c" }
          , { url := "stun:b", username := "", credential := "" } ] } }

/-- An inbound offer message. -/
def offerMsg : JObj := [("type", JVal.str "offer"), ("sdp", JVal.str "v=0")]

/-- An inbound ice-candidate message whose candidate applies cleanly. -/
def goodCandMsg : JObj :=
  [("type", JVal.str "ice-candidate"), ("candidate", JVal.str "a")]

/-- An inbound ice-candidate message whose candidate fails to apply under
`answerEnv`. -/
def badCandMsg : JObj :=
  [("type", JVal.str "ice-candidate"), ("candidate", JVal.str "bad")]

/-- A client as it stands when teardown begins: connected, with a session
identity and a buffered candidate, transport and channel open. -/
def teardownClient : Client :=
  { freshClient with
      state := WebRtcState.CONNECTED
      session_id := some "sid-x"
      session_id_crc32 := some "abcd"
      ice_candidates_before_sdp_answer := [JVal.str "early"]
      web_socket := some ()
      peer_connection := some newPc }

/-! Claim theorems. -/

/-- C1: the claim states that early ice candidates are appended to the
pending-candidate buffer and drained in FIFO order after the local
description is applied.  In the code, `handle_signaling_message` never
touches `ice_candidates_before_sdp_answer` (first conjunct: the buffer is
unchanged by every message, so nothing is ever appended to it or drained
from it), and a candidate arriving while no local description is applied is
passed straight to `addIceCandidate` instead of being buffered (second
conjunct, at a concrete early candidate). -/
theorem early_candidate_applied_directly_buffer_untouched :
    (∀ (env : SigEnv) (c : Client) (msg : JObj),
        (handle_signaling_message env c msg).client.ice_candidates_before_sdp_answer =
          c.ice_candidates_before_sdp_answer) ∧
    handle_signaling_message answerEnv liveClient goodCandMsg =
      { client := { liveClient with
                    peer_connection := some ({ newPc with appliedCandidates := [JVal.str "a"] }) }
        sent := []
        raised := none } := by
  constructor
  · intro env c msg
    unfold handle_signaling_message
    repeat' split <;> try rfl
    all_goals dsimp only
    all_goals split <;> rfl
  · decide

/-- C2: the claim states that the coordinator state becomes CONNECTED only
when the transport session reports "connected".  In the code,
`create_webrtc_session` sets the state to CONNECTED immediately after a
usable discovery record arrives, leaving the peer connection exactly as it
was (first conjunct); in particular, starting from a fresh connecting
client, the state is CONNECTED while no peer connection exists at all, so
no transport connection-state event can have occurred (second conjunct). -/
theorem connected_state_set_without_transport_event :
    (∀ (c : Client) (st : Stream),
        (create_webrtc_session c (Except.ok (some st))).client.state =
          WebRtcState.CONNECTED ∧
        (create_webrtc_session c (Except.ok (some st))).client.peer_connection =
          c.peer_connection) ∧
    ((create_webrtc_session { freshClient with state := WebRtcState.CONNECTING }
        (Except.ok (some twoServerStream))).client.state = WebRtcState.CONNECTED ∧
     (create_webrtc_session { freshClient with state := WebRtcState.CONNECTING }
        (Except.ok (some twoServerStream))).client.peer_connection = none) :=
  ⟨fun _ _ => ⟨rfl, rfl⟩, rfl, rfl⟩

/-- C3: the claim states that a discovery failure raises DiscoveryError,
ends at DISCONNECTED and notifies the observer.  In the code, when the
discovery API returns a falsy record, `create_webrtc_session` logs and
returns with no exception and the state stays CONNECTING; when the
discovery call raises, the exception propagates (the `try` is commented
out) and the state again stays CONNECTING.  No DiscoveryError type exists
and `status_listener` is never invoked anywhere in the class. -/
theorem discovery_failure_leaves_connecting_state :
    (start_webrtc_connection freshClient "MAC1" "TOK1" "MOD1" "sid-1"
        (Except.ok none)).client.state = WebRtcState.CONNECTING ∧
    (start_webrtc_connection freshClient "MAC1" "TOK1" "MOD1" "sid-1"
        (Except.ok none)).raised = none ∧
    (start_webrtc_connection freshClient "MAC1" "TOK1" "MOD1" "sid-1"
        (Except.error ())).client.state = WebRtcState.CONNECTING ∧
    (start_webrtc_connection freshClient "MAC1" "TOK1" "MOD1" "sid-1"
        (Except.error ())).raised = some PyErr.discoveryRaise :=
  ⟨rfl, rfl, rfl, rfl⟩

/-- C4: the claim states that teardown clears the session identity and the
candidate buffer, notifies the observer, and ends at DISCONNECTED
unconditionally.  In the code, `cleanup` only closes the two handles and
resets `web_socket_opened`: for every client it preserves the state, the
session identity and the candidate buffer (first conjunct); at a concrete
connected client the final state is still CONNECTED with identity and
buffer intact, even though both closes were attempted (second conjunct). -/
theorem cleanup_preserves_state_identity_and_buffer :
    (∀ c : Client,
        (cleanup c).client.state = c.state ∧
        (cleanup c).client.session_id = c.session_id ∧
        (cleanup c).client.session_id_crc32 = c.session_id_crc32 ∧
        (cleanup c).client.ice_candidates_before_sdp_answer =
          c.ice_candidates_before_sdp_answer) ∧
    ((cleanup teardownClient).client.state = WebRtcState.CONNECTED ∧
     (cleanup teardownClient).client.session_id = some "sid-x" ∧
     (cleanup teardownClient).client.ice_candidates_before_sdp_answer =
        [JVal.str "early"] ∧
     (cleanup teardownClient).pc_close_attempted = true ∧
     (cleanup teardownClient).ws_close_attempted = true) := by
  constructor
  · intro c
    cases hc : c.peer_connection <;> simp [cleanup, hc]
  · decide

/-- C5: the claim states that the transport session is configured with
exactly the relay descriptors returned by discovery.  In the code,
`create_webrtc_session` writes the discovered descriptors only into
`webrtc_context.ice_servers` and never into `self.ice_servers` (first
conjunct), while `webrtc_peer_connection_factory` builds the
RTCConfiguration from `self.ice_servers`; concretely, after a discovery
response with two descriptors the context holds those two descriptors but
the created peer connection carries an empty ICE configuration. -/
theorem transport_config_ignores_discovered_ice_servers :
    (∀ (c : Client) (sr : Except Unit (Option Stream)),
        (create_webrtc_session c sr).client.ice_servers = c.ice_servers) ∧
    ((create_webrtc_session { freshClient with state := WebRtcState.CONNECTING }
        (Except.ok (some twoServerStream))).client.webrtc_context_ice_servers =
      [ { url := "turn:a", username := "u", credential := "c" }
      , { url := "stun:b", username := "", credential := "" } ] ∧
     (webrtc_peer_connection_factory
        (create_webrtc_session { freshClient with state := WebRtcState.CONNECTING }
          (Except.ok (some twoServerStream))).client).client.peer_connection =
      some newPc) := by
  constructor
  · intro c sr
    rcases sr with e | st
    · rfl
    · rcases st with _ | s <;> rfl
  · constructor
    · decide
    · decide

/-- C6: the claim states that a failing ice-candidate message is logged and
only discarded, with processing continuing and the session kept alive.  In
the code, the single `except` clause of `handle_signaling_message` logs and
then re-raises, so the failure escapes to the caller (first conjunct); the
attribute state of the client is left unchanged rather than torn down
(second conjunct), and a separate invocation on a well-behaved candidate
from the same state still succeeds (third conjunct). -/
theorem failing_candidate_error_reraised :
    (handle_signaling_message answerEnv liveClient badCandMsg).raised =
      some PyErr.candidateApplyError ∧
    (handle_signaling_message answerEnv liveClient badCandMsg).client = liveClient ∧
    (handle_signaling_message answerEnv liveClient goodCandMsg).raised = none := by
  decide

/-- C7: while the state is CONNECTED, CONNECTING or DISCONNECTING,
`start_webrtc_connection` leaves every field of the client unchanged (the
call returns on one of the two early branches, before the state update,
session-identity generation and parameter storage), and when the three
parameters are non-empty it returns without raising. -/
theorem start_is_noop_outside_disconnected (c : Client)
    (mac access_token model uuid4 : String)
    (sr : Except Unit (Option Stream))
    (h : c.state = WebRtcState.CONNECTED ∨ c.state = WebRtcState.CONNECTING ∨
         c.state = WebRtcState.DISCONNECTING) :
    (start_webrtc_connection c mac access_token model uuid4 sr).client = c ∧
    (¬ (mac = "" ∨ access_token = "" ∨ model = "") →
      (start_webrtc_connection c mac access_token model uuid4 sr).raised = none) := by
  unfold start_webrtc_connection
  rcases h with h | h | h <;> split_ifs <;> simp_all

/-- Witness for C7 at a concrete connected client and non-empty
parameters. -/
theorem start_is_noop_outside_disconnected_witness :
    (start_webrtc_connection { freshClient with state := WebRtcState.CONNECTED }
        "MAC1" "TOK1" "MOD1" "u1" (Except.ok none)).client =
      { freshClient with state := WebRtcState.CONNECTED } ∧
    (¬ (("MAC1" : String) = "" ∨ ("TOK1" : String) = "" ∨ ("MOD1" : String) = "") →
      (start_webrtc_connection { freshClient with state := WebRtcState.CONNECTED }
          "MAC1" "TOK1" "MOD1" "u1" (Except.ok none)).raised = none) :=
  start_is_noop_outside_disconnected
    { freshClient with state := WebRtcState.CONNECTED }
    "MAC1" "TOK1" "MOD1" "u1" (Except.ok none) (Or.inl rfl)

/-- C8: an inbound offer message with an sdp field, handled while a peer
connection and an open web socket exist, is applied as the remote
description; the engine answer is applied as the local description; and the
message sent over the channel is exactly the JSON object with type
"answer" and the sdp of the local description that was just applied. -/
theorem offer_triggers_answer_over_channel (env : SigEnv) (c : Client)
    (pc : PeerConnection) (msg : JObj) (sdp : String)
    (hpc : c.peer_connection = some pc) (hws : c.web_socket = some ())
    (_hst : c.state ≠ WebRtcState.DISCONNECTED)
    (hty : jget msg "type" = some (JVal.str "offer"))
    (hsdp : jget msg "sdp" = some (JVal.str sdp)) :
    handle_signaling_message env c msg =
      { client := { c with
                    peer_connection := some
                      ((pc.setRemoteDescription ⟨sdp, "offer"⟩).setLocalDescription
                        (env.createAnswer (pc.setRemoteDescription ⟨sdp, "offer"⟩))) }
        sent := [[("type", JVal.str "answer"),
                  ("sdp", JVal.str (env.createAnswer
                    (pc.setRemoteDescription ⟨sdp, "offer"⟩)).sdp)]]
        raised := none } := by
  unfold handle_signaling_message
  rw [hty, hsdp, hpc, hws]
  simp [PeerConnection.setRemoteDescription, PeerConnection.setLocalDescription]

/-- Witness for C8 at a concrete offer, client and engine oracle. -/
theorem offer_triggers_answer_over_channel_witness :
    handle_signaling_message answerEnv liveClient offerMsg =
      { client := { liveClient with
                    peer_connection := some
                      ((newPc.setRemoteDescription ⟨"v=0", "offer"⟩).setLocalDescription
                        (answerEnv.createAnswer (newPc.setRemoteDescription ⟨"v=0", "offer"⟩))) }
        sent := [[("type", JVal.str "answer"),
                  ("sdp", JVal.str (answerEnv.createAnswer
                    (newPc.setRemoteDescription ⟨"v=0", "offer"⟩)).sdp)]]
        raised := none } :=
  offer_triggers_answer_over_channel answerEnv liveClient newPc offerMsg "v=0"
    rfl rfl (by decide) (by decide) (by decide)

/-- C9: running the statements of `WebRtcClient.__init__` in order always
raises AttributeError: the assignment
`self.webrtc_context.ice_servers = []` reads the attribute
`webrtc_context`, and at that point only `stream_listener`,
`status_listener`, `webrtc_statistics` and `state` are bound, whatever the
constructor arguments were.  No client object is ever produced. -/
theorem init_always_raises_attribute_error {α : Type}
    (stream_listener status_listener webrtc_statistics : α) :
    WebRtcClient_init stream_listener status_listener webrtc_statistics =
      Except.error PyErr.attributeError := rfl

/-- C10: `start_webrtc_connection` raises ValueError exactly when one of
mac, access_token, model is empty (the only falsy value of a Python `str`),
and in that case it raises on its first statement, before the state check
and before any attribute of the client is assigned. -/
theorem start_valueerror_iff_empty_param (c : Client)
    (mac access_token model uuid4 : String)
    (sr : Except Unit (Option Stream)) :
    ((start_webrtc_connection c mac access_token model uuid4 sr).raised =
        some PyErr.valueError ↔ (mac = "" ∨ access_token = "" ∨ model = "")) ∧
    ((mac = "" ∨ access_token = "" ∨ model = "") →
      (start_webrtc_connection c mac access_token model uuid4 sr).client = c) := by
  unfold start_webrtc_connection
  split_ifs with h1 h2 h3
  · simp [h1]
  · simp [h1, h2]
  · simp [h1, h2, h3]
  · rcases sr with e | st
    · simp [create_webrtc_session, h1]
    · rcases st with _ | s <;> simp [create_webrtc_session, h1]

/-- Witness for C10 at an empty mac parameter. -/
theorem start_valueerror_iff_empty_param_witness :
    ((start_webrtc_connection freshClient "" "TOK1" "MOD1" "u1"
        (Except.ok none)).raised = some PyErr.valueError ↔
      (("" : String) = "" ∨ ("TOK1" : String) = "" ∨ ("MOD1" : String) = "")) ∧
    ((("" : String) = "" ∨ ("TOK1" : String) = "" ∨ ("MOD1" : String) = "") →
      (start_webrtc_connection freshClient "" "TOK1" "MOD1" "u1"
        (Except.ok none)).client = freshClient) :=
  start_valueerror_iff_empty_param freshClient "" "TOK1" "MOD1" "u1" (Except.ok none)

end WyzeWebRtc
